import Mathlib

/-!
Shallow embedding of the usage-metering and streaming-response pipeline of
the Telegram bot in `src/index.ts`, together with theorems settling the
spec claims about it.

Timestamps are modelled as natural numbers (milliseconds since epoch), as
`Date.getTime()` yields in the source.  Each stateful function is embedded
as a pure state transformer on the stored `UserProfile` (the single
document the source reads and updates per user).
-/

namespace TgBot

/-- `MAX_CONTEXT_MESSAGES` from `src/index.ts` line 58. -/
def MAX_CONTEXT_MESSAGES : Nat := 8

/-- `STREAM_CHUNK_SIZE` from `src/index.ts` line 59. -/
def STREAM_CHUNK_SIZE : Nat := 100

/-- `FREE_DAILY_LIMIT` from `src/index.ts` line 60. -/
def FREE_DAILY_LIMIT : Nat := 10

/-- `PREMIUM_DAILY_LIMIT` from `src/index.ts` line 61. -/
def PREMIUM_DAILY_LIMIT : Nat := 100

/-- Milliseconds in 24 hours, the `24 * 60 * 60 * 1000` of line 254. -/
def dayMs : Nat := 24 * 60 * 60 * 1000

/-- The subscription tier of a `UserProfile` (`'free' | 'premium'`). -/
inductive Subscription where
  | free : Subscription
  | premium : Subscription
deriving DecidableEq, Repr

/-- The `UserProfile` interface (lines 13-21): the stored user document.
`username` and `_id` play no role in any claim and are omitted. -/
structure UserProfile where
  userId : Nat
  subscription : Subscription
  dailyRequests : Nat
  lastResetDate : Nat
  subscriptionExpiryDate : Option Nat
deriving DecidableEq, Repr

/-- Tier daily limit: `user.subscription === 'premium' ? PREMIUM_DAILY_LIMIT
: FREE_DAILY_LIMIT` (line 270). -/
def dailyLimit : Subscription → Nat
  | .premium => PREMIUM_DAILY_LIMIT
  | .free => FREE_DAILY_LIMIT

/-- `checkAndUpdateSubscriptionStatus` (lines 182-215), restricted to its
effect on the stored profile: a premium profile whose expiry exists and is
strictly in the past (`now > user.subscriptionExpiryDate`) is downgraded to
`free` with the expiry cleared; anything else is untouched.  The source
performs the `updateOne` before the optional notification reply, so the
stored result does not depend on the reply at all; see
`checkStatusWithNotify` for the effect-ordered version. -/
def checkAndUpdateSubscriptionStatus (now : Nat) (u : UserProfile) : UserProfile :=
  match u.subscription, u.subscriptionExpiryDate with
  | .premium, some expiry =>
      if expiry < now then
        { u with subscription := .free, subscriptionExpiryDate := none }
      else u
  | _, _ => u

/-- The observable outcome of one run of `checkAndUpdateSubscriptionStatus`
with a reply channel: the stored profile, and whether the call completed
without an exception. -/
structure StatusOutcome where
  stored : UserProfile
  completed : Bool
deriving DecidableEq, Repr

/-- `checkAndUpdateSubscriptionStatus` with its effect order made explicit:
the database `updateOne` (line 192) is awaited before the notification
`ctx.reply` (line 204) is attempted, so when the notification fails
(`replyOk = false`) the call raises after the downgrade is already stored.
`hasCtx` is whether a `ctx` was passed (line 182's optional parameter). -/
def checkStatusWithNotify (now : Nat) (hasCtx replyOk : Bool) (u : UserProfile) :
    StatusOutcome :=
  match u.subscription, u.subscriptionExpiryDate with
  | .premium, some expiry =>
      if expiry < now then
        { stored := { u with subscription := .free, subscriptionExpiryDate := none }
          completed := if hasCtx then replyOk else true }
      else { stored := u, completed := true }
  | _, _ => { stored := u, completed := true }

/-- The quota core of `updateUserRequests` (lines 253-276), acting on the
profile as read after the subscription checks: if `now >= lastResetDate +
24h`, reset the counter to 1 and stamp `lastResetDate = now`, admitting;
else deny without mutation when the counter has reached the tier limit;
else increment the counter and admit. -/
def quotaStep (now : Nat) (u : UserProfile) : UserProfile × Bool :=
  if u.lastResetDate + dayMs ≤ now then
    ({ u with dailyRequests := 1, lastResetDate := now }, true)
  else if dailyLimit u.subscription ≤ u.dailyRequests then
    (u, false)
  else
    ({ u with dailyRequests := u.dailyRequests + 1 }, true)

/-- `updateUserRequests` (lines 247-277) as a transformer on the stored
profile, returning the new stored profile and the admit/deny boolean.  The
source first runs `checkAndUpdateSubscriptionStatus` (line 248) and then
`getUserProfile` (line 251), which runs the same check again (line 218);
both are embedded (the second application is idempotent), followed by the
quota core. -/
def updateUserRequests (now : Nat) (u : UserProfile) : UserProfile × Bool :=
  quotaStep now
    (checkAndUpdateSubscriptionStatus now (checkAndUpdateSubscriptionStatus now u))

/-- Sequential processing of one user's quota checks at the given list of
times: folds `updateUserRequests` and counts the admitted checks. -/
def runChecks : List Nat → UserProfile → UserProfile × Nat
  | [], u => (u, 0)
  | t :: ts, u =>
      ((runChecks ts (updateUserRequests t u).1).1,
       (if (updateUserRequests t u).2 then 1 else 0)
         + (runChecks ts (updateUserRequests t u).1).2)

/-- One outbound message operation: an initial `ctx.reply` send (line 131)
or an `editMessageText` of the single sent message (lines 123, 143), with
the full text it carries. -/
inductive StreamOp where
  | send : String → StreamOp
  | edit : String → StreamOp
deriving DecidableEq, Repr

/-- The mutable state of the streaming loop: `responseChunk` is the
accumulation buffer (line 106) and `sentText` is `sentMessage?.text`
(line 107, `undefined` until the first send); `ops` is the trace of
outbound operations performed so far. -/
structure StreamState where
  responseChunk : String
  sentText : Option String
  ops : List StreamOp
deriving DecidableEq, Repr

/-- State at loop entry (lines 106-107). -/
def initStream : StreamState :=
  { responseChunk := "", sentText := none, ops := [] }

/-- Embedding of `content.includes('\n')` (line 121): whether the fragment
contains a newline character. -/
def hasNewline (s : String) : Bool := s.data.contains '\n'

/-- The body of `for await (const part of stream)` (lines 117-134) for one
fragment: append the fragment to the buffer; if the buffer has reached
`STREAM_CHUNK_SIZE` or the fragment contains a newline, flush — edit the
sent message to its remembered text plus the buffer (updating the
remembered text), or send a first message with the buffer — and clear the
buffer. -/
def processPart (s : StreamState) (content : String) : StreamState :=
  if STREAM_CHUNK_SIZE ≤ (s.responseChunk ++ content).length
      ∨ hasNewline content then
    match s.sentText with
    | some t =>
        { responseChunk := ""
          sentText := some (t ++ (s.responseChunk ++ content))
          ops := s.ops ++ [.edit (t ++ (s.responseChunk ++ content))] }
    | none =>
        { responseChunk := ""
          sentText := some (s.responseChunk ++ content)
          ops := s.ops ++ [.send (s.responseChunk ++ content)] }
  else { s with responseChunk := s.responseChunk ++ content }

/-- The whole streaming loop over the received fragments. -/
def runStream (parts : List String) : StreamState :=
  parts.foldl processPart initStream

/-- The flush after stream end (lines 141-152): if the buffer is non-empty,
edit (or first-send) once more.  The source does not update
`sentMessage.text` here, and `fullResponse` (line 154) is computed from
`sentMessage.text` and `responseChunk` afterwards, so neither field is
changed. -/
def finalFlush (s : StreamState) : StreamState :=
  if s.responseChunk = "" then s
  else
    match s.sentText with
    | some t => { s with ops := s.ops ++ [.edit (t ++ s.responseChunk)] }
    | none => { s with ops := s.ops ++ [.send s.responseChunk] }

/-- Full post-stream processing: the loop followed by the final flush. -/
def streamEnd (parts : List String) : StreamState :=
  finalFlush (runStream parts)

/-- `fullResponse` (line 154): the remembered sent text (empty when nothing
was sent) followed by the residual buffer; this is the string persisted by
`saveChatMessage(userId, 'assistant', fullResponse)` (line 155). -/
def fullResponse (s : StreamState) : String :=
  s.sentText.getD "" ++ s.responseChunk

/-- Whether an operation is the initial send. -/
def StreamOp.isSend : StreamOp → Bool
  | .send _ => true
  | .edit _ => false

/-- Whether an operation is an edit of the already-sent message. -/
def StreamOp.isEdit : StreamOp → Bool
  | .send _ => false
  | .edit _ => true

/-- Trace shape: the first operation (if any) is a send, every later one an
edit of the single sent message. -/
def sendThenEdits : List StreamOp → Prop
  | [] => True
  | o :: rest => o.isSend = true ∧ ∀ x ∈ rest, x.isEdit = true

/-- Total character length of a fragment sequence. -/
def totalLen (parts : List String) : Nat :=
  (parts.map String.length).sum

/-- Loop invariant when every fragment has at most one character and no
newline: the buffer holds the residue of the running length modulo the
chunk size, one outbound operation has happened per full chunk, the trace
is a send followed by edits, and a message has been sent exactly when the
trace is nonempty. -/
structure ChunkInv (n : Nat) (s : StreamState) : Prop where
  buf : s.responseChunk.length = n % STREAM_CHUNK_SIZE
  opsCount : s.ops.length = n / STREAM_CHUNK_SIZE
  shape : sendThenEdits s.ops
  sentIff : s.sentText = none ↔ s.ops = []

/-- One-character fragments realizing the 250-character scenario. -/
def fragments250 : List String := List.replicate 250 "a"

/-- A single 250-character fragment with no newline. -/
def bigFragment : String := String.mk (List.replicate 250 'a')

/-- `estimateTokens` (lines 86-88): `Math.ceil(text.length / 4)`, which on
naturals is `(length + 3) / 4`. -/
def estimateTokens (text : String) : Nat := (text.length + 3) / 4

/-- One stream part as consumed by the loop: the text delta (line 118,
empty when absent) and the optional `usage.total_tokens` report of
line 136. -/
structure StreamPart where
  content : String
  usage : Option Nat
deriving DecidableEq, Repr

/-- The `totalResponseTokens` accumulator update of lines 136-138: a
reported value overwrites the accumulator only when truthy, i.e. present
and nonzero. -/
def usageUpd (acc : Nat) (p : StreamPart) : Nat :=
  match p.usage with
  | some n => if n = 0 then acc else n
  | none => acc

/-- `totalResponseTokens` at loop end (initialized to 0 at line 105). -/
def reportedTokens (parts : List StreamPart) : Nat :=
  parts.foldl usageUpd 0

/-- The output-token count recorded by `updateTokenUsage` (lines 157-161):
the reported total when it ended nonzero, otherwise
`estimateTokens(fullResponse)`. -/
def recordedOutputTokens (parts : List StreamPart) : Nat :=
  if reportedTokens parts = 0 then
    estimateTokens (fullResponse (runStream (parts.map StreamPart.content)))
  else reportedTokens parts

/-- The truthy (nonzero) usage reports of a stream, in order. -/
def positiveUsages (parts : List StreamPart) : List Nat :=
  parts.filterMap fun p =>
    match p.usage with
    | some n => if n = 0 then none else some n
    | none => none

/-- Message roles (`'system' | 'user' | 'assistant'`). -/
inductive ChatRole where
  | system : ChatRole
  | user : ChatRole
  | assistant : ChatRole
deriving DecidableEq, Repr

/-- One document of the `chats` collection (lines 78-83). -/
structure ChatMsg where
  userId : Nat
  role : ChatRole
  content : String
  timestamp : Nat
deriving DecidableEq, Repr

/-- The Mongo sort specifier `{ timestamp: -1 }` (line 69): descending by
timestamp. -/
def byTimestampDesc (a b : ChatMsg) : Bool :=
  decide (b.timestamp ≤ a.timestamp)

/-- `getChatHistory` (lines 67-74): filter the collection to the user, sort
by timestamp descending, truncate to `MAX_CONTEXT_MESSAGES`, project to
role and content, and reverse into chronological order. -/
def getChatHistory (store : List ChatMsg) (uid : Nat) :
    List (ChatRole × String) :=
  ((((store.filter fun m => m.userId == uid).mergeSort
        byTimestampDesc).take MAX_CONTEXT_MESSAGES).map
      fun m => (m.role, m.content)).reverse

/-- The same returned sequence before the role/content projection: the
turns backing the result of `getChatHistory`, in returned order. -/
def getChatHistoryMsgs (store : List ChatMsg) (uid : Nat) : List ChatMsg :=
  (((store.filter fun m => m.userId == uid).mergeSort
      byTimestampDesc).take MAX_CONTEXT_MESSAGES).reverse

/-- The decide-and-write half of `updateUserRequests` when the stored
document (`db`) may have changed after the snapshot was read by
`getUserProfile` (line 251): the branch decisions of lines 256 and 271
look only at the snapshot, while the writes land on the current document —
`$set` (lines 258-266) overwrites with values computed from `now` alone,
and `$inc` (line 275) atomically increments the current counter. -/
def quotaDecideAndWrite (now : Nat) (snapshot db : UserProfile) :
    UserProfile × Bool :=
  if snapshot.lastResetDate + dayMs ≤ now then
    ({ db with dailyRequests := 1, lastResetDate := now }, true)
  else if dailyLimit snapshot.subscription ≤ snapshot.dailyRequests then
    (db, false)
  else
    ({ db with dailyRequests := db.dailyRequests + 1 }, true)

/-- Duplicate webhook delivery: two handler instances for the same user
both read the same stored profile before either write lands, then their
writes land in order.  Returns the final stored profile and both admit
decisions. -/
def duplicateDelivery (now : Nat) (s0 : UserProfile) :
    UserProfile × Bool × Bool :=
  ((quotaDecideAndWrite now s0 (quotaDecideAndWrite now s0 s0).1).1,
   (quotaDecideAndWrite now s0 s0).2,
   (quotaDecideAndWrite now s0 (quotaDecideAndWrite now s0 s0).1).2)

/-- A free-tier user one request below the limit, inside the window. -/
def userAtNine : UserProfile :=
  { userId := 7, subscription := .free, dailyRequests := 9,
    lastResetDate := 0, subscriptionExpiryDate := none }

/-- The `Invoice` interface (lines 23-32), restricted to the fields the
handlers read. -/
structure Invoice where
  invoice_id : String
  user_id : Nat
  amount : Nat
  payload : String
deriving DecidableEq, Repr

/-- The fields of the `successful_payment` message the handler reads
(lines 529, 538, 541). -/
structure PaymentMsg where
  invoice_payload : String
  telegram_payment_charge_id : String
  total_amount : Nat
deriving DecidableEq, Repr

/-- The `Payment` document written by `createPayment` (lines 314-327). -/
structure Payment where
  payment_id : String
  invoice_id : String
  user_id : Nat
  amount : Nat
  status : String
deriving DecidableEq, Repr

/-- 30 days in milliseconds: `expiryDate.setDate(expiryDate.getDate() +
30)` (lines 548-549) in the flat-time model. -/
def thirtyDaysMs : Nat := 30 * dayMs

/-- The `users.updateOne({userId}, {$set: {subscription: 'premium',
subscriptionExpiryDate}})` of lines 551-559. -/
def grantPremium (users : List UserProfile) (uid expiry : Nat) :
    List UserProfile :=
  users.map fun u =>
    if u.userId == uid then
      { u with subscription := .premium, subscriptionExpiryDate := some expiry }
    else u

/-- The database outcome of one `successful_payment` event. -/
structure PaymentOutcome where
  payments : List Payment
  users : List UserProfile
  ok : Bool
deriving DecidableEq, Repr

/-- The `successful_payment` handler (lines 523-566): look the invoice up
by `payload` alone (line 528); when found, insert a completed `Payment`
whose `user_id` is the SENDER (`ctx.from.id`, line 540), and grant the
sender premium until 30 days from now (lines 547-559).  The invoice's own
`user_id` is never read. -/
def successfulPaymentHandler (now : Nat) (invoices : List Invoice)
    (payments : List Payment) (users : List UserProfile)
    (senderId : Nat) (pm : PaymentMsg) : PaymentOutcome :=
  match invoices.find? (fun i => i.payload == pm.invoice_payload) with
  | none => { payments := payments, users := users, ok := false }
  | some inv =>
      { payments := payments ++
          [{ payment_id := pm.telegram_payment_charge_id
             invoice_id := inv.invoice_id
             user_id := senderId
             amount := pm.total_amount
             status := "completed" }]
        users := grantPremium users senderId (now + thirtyDaysMs)
        ok := true }

/-- A fresh free profile as `getUserProfile` creates it (lines 224-230),
with creation time 0. -/
def freshUser : UserProfile :=
  { userId := 1, subscription := .free, dailyRequests := 0,
    lastResetDate := 0, subscriptionExpiryDate := none }

/-- Two check times inside `freshUser`'s first window. -/
def checkTimes : List Nat := [1000, 2000]

/-- A premium profile whose expiry (time 1000) has elapsed by time 2000. -/
def expiredPremium : UserProfile :=
  { userId := 2, subscription := .premium, dailyRequests := 5,
    lastResetDate := 0, subscriptionExpiryDate := some 1000 }

/-- An invoice owned by user 42. -/
def invoiceFromOther : Invoice :=
  { invoice_id := "inv-1", user_id := 42, amount := 1, payload := "tok-1" }

/-- A payment message whose payload matches `invoiceFromOther` but which is
sent by user 7. -/
def paymentMsgA : PaymentMsg :=
  { invoice_payload := "tok-1", telegram_payment_charge_id := "ch-1",
    total_amount := 1 }

/-- The stored profile of the paying user 7. -/
def buyerProfile : UserProfile :=
  { userId := 7, subscription := .free, dailyRequests := 0,
    lastResetDate := 0, subscriptionExpiryDate := none }

/-- The subscription check is the identity whenever the profile is not a
premium profile with an elapsed expiry. -/
lemma checkStatus_id (now : Nat) (u : UserProfile)
    (h : ∀ e, u.subscription = .premium → u.subscriptionExpiryDate = some e → now ≤ e) :
    checkAndUpdateSubscriptionStatus now u = u := by
  unfold checkAndUpdateSubscriptionStatus
  cases hs : u.subscription with
  | free => cases u.subscriptionExpiryDate <;> rfl
  | premium =>
      cases he : u.subscriptionExpiryDate with
      | none => rfl
      | some e =>
          have := h e hs he
          simp [Nat.not_lt.mpr this]

/-- The subscription check only reads `subscription` and
`subscriptionExpiryDate`; if it fixes a profile it fixes any profile
agreeing on those two fields. -/
lemma checkStatus_id_of_fields (now : Nat) (u v : UserProfile)
    (hs : v.subscription = u.subscription)
    (he : v.subscriptionExpiryDate = u.subscriptionExpiryDate)
    (h : checkAndUpdateSubscriptionStatus now u = u) :
    checkAndUpdateSubscriptionStatus now v = v := by
  unfold checkAndUpdateSubscriptionStatus at h ⊢
  rw [hs, he]
  cases hsu : u.subscription with
  | free => cases u.subscriptionExpiryDate <;> rfl
  | premium =>
      cases heu : u.subscriptionExpiryDate with
      | none => rfl
      | some e =>
          rw [hsu, heu] at h
          by_cases hlt : e < now
          · simp only [if_pos hlt] at h
            have : u.subscription = Subscription.free := by
              rw [← h]
            rw [hsu] at this
            cases this
          · simp [if_neg hlt]

/-- Characterization of the subscription check: it either fixes the profile
or performs exactly the premium-to-free downgrade. -/
lemma checkStatus_spec (now : Nat) (u : UserProfile) :
    checkAndUpdateSubscriptionStatus now u = u
    ∨ (u.subscription = .premium
       ∧ checkAndUpdateSubscriptionStatus now u
           = { u with subscription := .free, subscriptionExpiryDate := none }) := by
  unfold checkAndUpdateSubscriptionStatus
  cases hs : u.subscription with
  | free => left; cases u.subscriptionExpiryDate <;> rfl
  | premium =>
      cases he : u.subscriptionExpiryDate with
      | none => left; rfl
      | some e =>
          by_cases hlt : e < now
          · right
            exact ⟨rfl, by simp [if_pos hlt]⟩
          · left; simp [if_neg hlt]

/-- The subscription check never touches the daily counter. -/
lemma checkStatus_dailyRequests (now : Nat) (u : UserProfile) :
    (checkAndUpdateSubscriptionStatus now u).dailyRequests = u.dailyRequests := by
  rcases checkStatus_spec now u with h | ⟨_, h⟩ <;> rw [h]

/-- The subscription check never touches the reset timestamp. -/
lemma checkStatus_lastResetDate (now : Nat) (u : UserProfile) :
    (checkAndUpdateSubscriptionStatus now u).lastResetDate = u.lastResetDate := by
  rcases checkStatus_spec now u with h | ⟨_, h⟩ <;> rw [h]

/-- The subscription check is idempotent. -/
lemma checkStatus_idem (now : Nat) (u : UserProfile) :
    checkAndUpdateSubscriptionStatus now (checkAndUpdateSubscriptionStatus now u)
      = checkAndUpdateSubscriptionStatus now u := by
  rcases checkStatus_spec now u with h | ⟨hp, h⟩
  · conv_lhs => rw [h]
  · rw [h]
    apply checkStatus_id
    intro e hs _
    cases hs

/-- The quota core never changes the subscription tier. -/
lemma quotaStep_subscription (now : Nat) (u : UserProfile) :
    (quotaStep now u).1.subscription = u.subscription := by
  unfold quotaStep
  split
  · rfl
  · split <;> rfl

/-- Both tier limits are positive. -/
lemma dailyLimit_pos (s : Subscription) : 1 ≤ dailyLimit s := by
  cases s <;> decide

/-- A run admits at most one request per check. -/
lemma runChecks_le (times : List Nat) (u : UserProfile) :
    (runChecks times u).2 ≤ times.length := by
  induction times generalizing u with
  | nil => simp [runChecks]
  | cons t ts ih =>
      simp only [runChecks, List.length_cons]
      have := ih (updateUserRequests t u).1
      split <;> omega

/-- Within the window, with the subscription check fixing the profile, a
denied check returns the profile unchanged and an admitted check increments
the counter by exactly one. -/
lemma updateUserRequests_within (now : Nat) (u : UserProfile)
    (hw : now < u.lastResetDate + dayMs)
    (hnd : checkAndUpdateSubscriptionStatus now u = u) :
    updateUserRequests now u =
      if dailyLimit u.subscription ≤ u.dailyRequests then (u, false)
      else ({ u with dailyRequests := u.dailyRequests + 1 }, true) := by
  unfold updateUserRequests quotaStep
  rw [hnd, hnd]
  rw [if_neg (by omega)]

/-- Core counting lemma: when every check of a run lies inside the initial
window and leaves the subscription untouched, and every check was admitted,
the counter advances by exactly the number of checks. -/
lemma runChecks_all_admitted (times : List Nat) (u : UserProfile)
    (hw : ∀ t ∈ times, t < u.lastResetDate + dayMs)
    (hnd : ∀ t ∈ times, checkAndUpdateSubscriptionStatus t u = u)
    (hadm : (runChecks times u).2 = times.length) :
    (runChecks times u).1.dailyRequests = u.dailyRequests + times.length := by
  induction times generalizing u with
  | nil => simp [runChecks]
  | cons t ts ih =>
      have hwt := hw t (List.mem_cons_self t ts)
      have hndt := hnd t (List.mem_cons_self t ts)
      have hstep := updateUserRequests_within t u hwt hndt
      by_cases hlim : dailyLimit u.subscription ≤ u.dailyRequests
      · rw [if_pos hlim] at hstep
        exfalso
        have hle := runChecks_le ts u
        simp only [runChecks, hstep, List.length_cons] at hadm
        simp at hadm
        omega
      · rw [if_neg hlim] at hstep
        set v : UserProfile := { u with dailyRequests := u.dailyRequests + 1 } with hv
        have hfields : v.lastResetDate = u.lastResetDate ∧ v.subscription = u.subscription
            ∧ v.subscriptionExpiryDate = u.subscriptionExpiryDate := ⟨rfl, rfl, rfl⟩
        have hadm' : (runChecks ts v).2 = ts.length := by
          simp only [runChecks, hstep, List.length_cons] at hadm
          simp at hadm
          omega
        have hfin := ih v
          (fun t' ht' => by rw [hfields.1]; exact hw t' (List.mem_cons_of_mem t ht'))
          (fun t' ht' => checkStatus_id_of_fields t' u v hfields.2.1 hfields.2.2
            (hnd t' (List.mem_cons_of_mem t ht')))
          hadm'
        simp only [runChecks, hstep, List.length_cons]
        rw [hfin]
        simp [hv]
        omega

/-- C1: within one reset window (and with the tier stable), starting from a
fresh zero counter, N consecutive admitted checks leave `dailyRequests = N`;
and once the counter has reached the tier limit, the next in-window check is
denied and returns the stored profile unmutated. -/
theorem C1_quota_counts_and_caps (times : List Nat) (u : UserProfile)
    (h0 : u.dailyRequests = 0)
    (hw : ∀ t ∈ times, t < u.lastResetDate + dayMs)
    (hnd : ∀ t ∈ times, checkAndUpdateSubscriptionStatus t u = u)
    (hadm : (runChecks times u).2 = times.length) :
    (runChecks times u).1.dailyRequests = times.length
    ∧ ∀ (now : Nat) (v : UserProfile),
        now < v.lastResetDate + dayMs →
        checkAndUpdateSubscriptionStatus now v = v →
        dailyLimit v.subscription ≤ v.dailyRequests →
        updateUserRequests now v = (v, false) := by
  constructor
  · have := runChecks_all_admitted times u hw hnd hadm
    omega
  · intro now v hwv hndv hlim
    rw [updateUserRequests_within now v hwv hndv, if_pos hlim]

/-- C2: whenever the call happens at or after `lastResetDate + 24h`, the
counter is reset to 1, the reset timestamp is stamped to now, and the
request is admitted, regardless of the prior counter value. -/
theorem C2_reset_boundary (now : Nat) (u : UserProfile)
    (h : u.lastResetDate + dayMs ≤ now) :
    (updateUserRequests now u).1.dailyRequests = 1
    ∧ (updateUserRequests now u).1.lastResetDate = now
    ∧ (updateUserRequests now u).2 = true := by
  unfold updateUserRequests quotaStep
  have h2 : (checkAndUpdateSubscriptionStatus now
      (checkAndUpdateSubscriptionStatus now u)).lastResetDate = u.lastResetDate := by
    rw [checkStatus_lastResetDate, checkStatus_lastResetDate]
  rw [if_pos (by omega)]
  exact ⟨rfl, rfl, rfl⟩

/-- C3: a stored premium profile whose expiry is in the past is downgraded
to free with the expiry cleared by the next subscription-status check; the
stored downgrade does not depend on whether the notification reply succeeds
(the update is awaited before the reply); and the quota decision of
`updateUserRequests` is the one taken on the already-downgraded profile. -/
theorem C3_expiry_downgrade (now : Nat) (hasCtx replyOk : Bool) (u : UserProfile)
    (e : Nat) (hp : u.subscription = .premium)
    (he : u.subscriptionExpiryDate = some e) (hlt : e < now) :
    (checkStatusWithNotify now hasCtx replyOk u).stored.subscription = .free
    ∧ (checkStatusWithNotify now hasCtx replyOk u).stored.subscriptionExpiryDate = none
    ∧ (checkStatusWithNotify now hasCtx replyOk u).stored
        = checkAndUpdateSubscriptionStatus now u
    ∧ updateUserRequests now u
        = updateUserRequests now (checkAndUpdateSubscriptionStatus now u) := by
  have hnotify : checkStatusWithNotify now hasCtx replyOk u =
      { stored := { u with subscription := .free, subscriptionExpiryDate := none }
        completed := if hasCtx then replyOk else true } := by
    unfold checkStatusWithNotify
    rw [hp, he]
    simp [if_pos hlt]
  have hcheck : checkAndUpdateSubscriptionStatus now u =
      { u with subscription := .free, subscriptionExpiryDate := none } := by
    unfold checkAndUpdateSubscriptionStatus
    rw [hp, he]
    simp [if_pos hlt]
  refine ⟨by rw [hnotify], by rw [hnotify], by rw [hnotify, hcheck], ?_⟩
  simp only [updateUserRequests, checkStatus_idem]

/-- C10: for a fixed tier (the call does not change the subscription), the
invariant `dailyRequests ≤ dailyLimit` is preserved by every sequential
`updateUserRequests` call: the reset path writes 1, the increment path only
fires strictly below the limit, and the deny path writes nothing. -/
theorem C10_limit_invariant (now : Nat) (u : UserProfile)
    (h1 : u.dailyRequests ≤ dailyLimit u.subscription)
    (h2 : (updateUserRequests now u).1.subscription = u.subscription) :
    (updateUserRequests now u).1.dailyRequests
      ≤ dailyLimit (updateUserRequests now u).1.subscription := by
  rcases checkStatus_spec now u with h | ⟨hp, h⟩
  · unfold updateUserRequests
    rw [h, h, quotaStep_subscription]
    unfold quotaStep
    split
    · exact dailyLimit_pos _
    · split
      · exact h1
      · simp only
        omega
  · exfalso
    have hs : (updateUserRequests now u).1.subscription = Subscription.free := by
      unfold updateUserRequests
      rw [checkStatus_idem, quotaStep_subscription, h]
    rw [hs, hp] at h2
    exact Subscription.noConfusion h2

/-- `String.join` of a cons, for the concatenation induction. -/
lemma join_cons (s : String) (l : List String) :
    String.join (s :: l) = s ++ String.join l := by
  simp [String.join_eq]
  rfl

/-- One loop iteration extends the would-be persisted text by exactly the
fragment received. -/
lemma fullResponse_processPart (s : StreamState) (content : String) :
    fullResponse (processPart s content) = fullResponse s ++ content := by
  unfold processPart fullResponse
  split
  · cases s.sentText with
    | none => simp [String.append_assoc]
    | some t => simp [String.append_assoc]
  · cases s.sentText with
    | none => simp [String.append_assoc]
    | some t => simp [String.append_assoc]

/-- The final flush changes neither the remembered text nor the buffer. -/
lemma fullResponse_finalFlush (s : StreamState) :
    fullResponse (finalFlush s) = fullResponse s := by
  obtain ⟨buf, st, ops⟩ := s
  unfold finalFlush
  cases st <;> split <;> rfl

/-- Folding the loop from any state appends the concatenation of the
fragments to the would-be persisted text. -/
lemma fullResponse_foldl (parts : List String) (s : StreamState) :
    fullResponse (parts.foldl processPart s) = fullResponse s ++ String.join parts := by
  induction parts generalizing s with
  | nil => simp [String.join]
  | cons p ps ih =>
      rw [List.foldl_cons, ih, fullResponse_processPart, join_cons,
        String.append_assoc]

/-- C5: for every sequence of stream fragments, whatever their sizes and
newline placement, the assistant turn persisted at stream end is exactly
the concatenation of all fragments in order. -/
theorem C5_persisted_is_concatenation (parts : List String) :
    fullResponse (streamEnd parts) = String.join parts := by
  rw [streamEnd, fullResponse_finalFlush, runStream, fullResponse_foldl]
  rfl

/-- A string of length zero is the empty string. -/
lemma length_eq_zero_iff (s : String) : s.length = 0 ↔ s = "" := by
  constructor
  · intro h
    cases s with
    | mk data =>
        cases data with
        | nil => rfl
        | cons a l => simp [String.length] at h
  · intro h
    subst h
    rfl

/-- Appending an edit to a nonempty well-shaped trace keeps it
well-shaped. -/
lemma sendThenEdits_append_edit (ops : List StreamOp) (t : String)
    (h : sendThenEdits ops) (hne : ops ≠ []) :
    sendThenEdits (ops ++ [.edit t]) := by
  cases ops with
  | nil => cases hne rfl
  | cons o rest =>
      obtain ⟨h1, h2⟩ := h
      refine ⟨h1, ?_⟩
      intro x hx
      rcases List.mem_append.mp hx with hm | hm
      · exact h2 x hm
      · simp at hm
        subst hm
        rfl

/-- The invariant holds at loop entry. -/
lemma chunkInv_init : ChunkInv 0 initStream :=
  ⟨rfl, rfl, trivial, by simp [initStream]⟩

/-- The invariant is preserved by one iteration on a fragment of at most
one character containing no newline. -/
lemma chunkInv_step (n : Nat) (s : StreamState) (content : String)
    (hlen : content.length ≤ 1) (hnl : hasNewline content = false)
    (hinv : ChunkInv n s) :
    ChunkInv (n + content.length) (processPart s content) := by
  obtain ⟨hbuf, hops, hshape, hsent⟩ := hinv
  have hmod : n % STREAM_CHUNK_SIZE < STREAM_CHUNK_SIZE :=
    Nat.mod_lt n (by decide)
  simp only [STREAM_CHUNK_SIZE] at hbuf hops hmod
  unfold processPart
  by_cases hfl : STREAM_CHUNK_SIZE ≤ (s.responseChunk ++ content).length
      ∨ hasNewline content
  · rw [if_pos hfl]
    rcases hfl with hfl | hfl
    · rw [String.length_append, hbuf] at hfl
      simp only [STREAM_CHUNK_SIZE] at hfl
      have hc1 : content.length = 1 := by omega
      have hm99 : n % 100 = 99 := by omega
      cases hst : s.sentText with
      | none =>
          have hopsnil : s.ops = [] := hsent.mp hst
          refine ⟨?_, ?_, ?_, ?_⟩
          · show ("" : String).length = (n + content.length) % STREAM_CHUNK_SIZE
            simp only [STREAM_CHUNK_SIZE]
            rw [hc1]
            simp [String.length]
            omega
          · show (s.ops ++ [StreamOp.send (s.responseChunk ++ content)]).length
                = (n + content.length) / STREAM_CHUNK_SIZE
            have hdiv0 : n / 100 = 0 := by
              rw [← hops, hopsnil]
              rfl
            simp only [STREAM_CHUNK_SIZE, List.length_append, hopsnil, hops]
            rw [hc1]
            simp
            omega
          · show sendThenEdits (s.ops ++ [StreamOp.send (s.responseChunk ++ content)])
            rw [hopsnil]
            exact ⟨rfl, by intro x hx; cases hx⟩
          · show some (s.responseChunk ++ content) = none
                ↔ s.ops ++ [StreamOp.send (s.responseChunk ++ content)] = []
            simp
      | some t =>
          have hopsne : s.ops ≠ [] := by
            intro hh
            have h0 := hsent.mpr hh
            rw [hst] at h0
            cases h0
          refine ⟨?_, ?_, ?_, ?_⟩
          · show ("" : String).length = (n + content.length) % STREAM_CHUNK_SIZE
            simp only [STREAM_CHUNK_SIZE]
            rw [hc1]
            simp [String.length]
            omega
          · show (s.ops ++ [StreamOp.edit (t ++ (s.responseChunk ++ content))]).length
                = (n + content.length) / STREAM_CHUNK_SIZE
            simp only [STREAM_CHUNK_SIZE, List.length_append, hops]
            rw [hc1]
            simp
            omega
          · exact sendThenEdits_append_edit s.ops _ hshape hopsne
          · show some (t ++ (s.responseChunk ++ content)) = none
                ↔ s.ops ++ [StreamOp.edit (t ++ (s.responseChunk ++ content))] = []
            simp
    · rw [hnl] at hfl
      cases hfl
  · rw [if_neg hfl]
    push_neg at hfl
    have hlt := hfl.1
    rw [String.length_append, hbuf] at hlt
    simp only [STREAM_CHUNK_SIZE] at hlt
    refine ⟨?_, ?_, hshape, hsent⟩
    · show (s.responseChunk ++ content).length = (n + content.length) % STREAM_CHUNK_SIZE
      rw [String.length_append, hbuf]
      simp only [STREAM_CHUNK_SIZE]
      omega
    · show s.ops.length = (n + content.length) / STREAM_CHUNK_SIZE
      rw [hops]
      simp only [STREAM_CHUNK_SIZE]
      omega

/-- The invariant is carried along the whole loop. -/
lemma chunkInv_foldl (parts : List String) (n : Nat) (s : StreamState)
    (h : ∀ p ∈ parts, p.length ≤ 1 ∧ hasNewline p = false)
    (hinv : ChunkInv n s) :
    ChunkInv (n + totalLen parts) (parts.foldl processPart s) := by
  induction parts generalizing n s with
  | nil => simpa [totalLen] using hinv
  | cons p ps ih =>
      have hp := h p (List.mem_cons_self p ps)
      have hrest := ih (n + p.length) (processPart s p)
        (fun q hq => h q (List.mem_cons_of_mem p hq))
        (chunkInv_step n s p hp.1 hp.2 hinv)
      have harith : n + totalLen (p :: ps) = n + p.length + totalLen ps := by
        simp only [totalLen, List.map_cons, List.sum_cons]
        omega
      rw [List.foldl_cons, harith]
      exact hrest

/-- The operation trace left by the final flush. -/
lemma finalFlush_ops (s : StreamState) :
    (finalFlush s).ops =
      if s.responseChunk = "" then s.ops
      else
        match s.sentText with
        | some t => s.ops ++ [.edit (t ++ s.responseChunk)]
        | none => s.ops ++ [.send s.responseChunk] := by
  obtain ⟨buf, st, ops⟩ := s
  unfold finalFlush
  cases st <;> split <;> rfl

/-- C4 (amended): when the stream delivers at most one character per
fragment and no fragment ever contains a newline, a response of total
length L produces exactly `⌈L / STREAM_CHUNK_SIZE⌉` outbound operations
(`(L + C - 1) / C` in natural division), of which the first is the initial
send and every later one an edit of that message.  (As stated over
arbitrary fragment sizes the claim is false: see `C4_cx_single_fragment`.) -/
theorem C4_chunk_operation_count (parts : List String)
    (h : ∀ p ∈ parts, p.length ≤ 1 ∧ hasNewline p = false) :
    (streamEnd parts).ops.length
        = (totalLen parts + (STREAM_CHUNK_SIZE - 1)) / STREAM_CHUNK_SIZE
    ∧ sendThenEdits (streamEnd parts).ops := by
  have hinv : ChunkInv (totalLen parts) (runStream parts) := by
    have hh := chunkInv_foldl parts 0 initStream h chunkInv_init
    simpa [runStream] using hh
  obtain ⟨hbuf, hops, hshape, hsent⟩ := hinv
  have hopsEq := finalFlush_ops (runStream parts)
  simp only [STREAM_CHUNK_SIZE] at hbuf hops ⊢
  rw [streamEnd]
  by_cases hempty : (runStream parts).responseChunk = ""
  · rw [if_pos hempty] at hopsEq
    rw [hopsEq]
    have hmod0 : totalLen parts % 100 = 0 := by
      rw [← hbuf, hempty]
      rfl
    exact ⟨by rw [hops]; omega, hshape⟩
  · rw [if_neg hempty] at hopsEq
    have hmodne : totalLen parts % 100 ≠ 0 := by
      intro hh
      exact hempty ((length_eq_zero_iff _).mp (by rw [hbuf, hh]))
    cases hst : (runStream parts).sentText with
    | none =>
        have hopsnil : (runStream parts).ops = [] := hsent.mp hst
        rw [hst] at hopsEq
        rw [hopsEq]
        have hdiv0 : totalLen parts / 100 = 0 := by
          rw [← hops, hopsnil]
          rfl
        constructor
        · simp [hopsnil]
          omega
        · rw [hopsnil]
          exact ⟨rfl, by intro x hx; cases hx⟩
    | some t =>
        have hopsne : (runStream parts).ops ≠ [] := by
          intro hh
          have h0 := hsent.mpr hh
          rw [hst] at h0
          cases h0
        rw [hst] at hopsEq
        rw [hopsEq]
        constructor
        · simp [hops]
          omega
        · exact sendThenEdits_append_edit _ _ hshape hopsne

set_option maxRecDepth 8000 in
/-- Witness for `C4_chunk_operation_count` at the spec's own scenario: 250
one-character fragments, threshold 100, give 3 operations (send, edit,
edit). -/
theorem C4_chunk_operation_count_witness :
    (∀ p ∈ fragments250, p.length ≤ 1 ∧ hasNewline p = false)
    ∧ ((streamEnd fragments250).ops.length
          = (totalLen fragments250 + (STREAM_CHUNK_SIZE - 1)) / STREAM_CHUNK_SIZE
        ∧ sendThenEdits (streamEnd fragments250).ops) :=
  ⟨by decide, C4_chunk_operation_count fragments250 (by decide)⟩

set_option maxRecDepth 8000 in
/-- Counterexample to C4 as stated: a response of total length 250 arriving
as ONE newline-free fragment performs a single outbound operation, not
`⌈250 / 100⌉ = 3`; the per-fragment flush check fires once on the oversized
buffer. -/
theorem C4_cx_single_fragment :
    bigFragment.length = 250
    ∧ hasNewline bigFragment = false
    ∧ totalLen [bigFragment] = 250
    ∧ (streamEnd [bigFragment]).ops.length = 1
    ∧ (totalLen [bigFragment] + (STREAM_CHUNK_SIZE - 1)) / STREAM_CHUNK_SIZE = 3 := by
  decide

/-- The accumulator of lines 136-138 computes the last truthy report. -/
lemma foldl_usageUpd (parts : List StreamPart) (a : Nat) :
    parts.foldl usageUpd a = (positiveUsages parts).getLastD a := by
  induction parts generalizing a with
  | nil => rfl
  | cons p ps ih =>
      rw [List.foldl_cons]
      cases hu : p.usage with
      | none =>
          have h1 : usageUpd a p = a := by simp [usageUpd, hu]
          have h2 : positiveUsages (p :: ps) = positiveUsages ps := by
            simp [positiveUsages, List.filterMap_cons, hu]
          rw [h1, h2, ih]
      | some n =>
          by_cases hn : n = 0
          · have h1 : usageUpd a p = a := by simp [usageUpd, hu, hn]
            have h2 : positiveUsages (p :: ps) = positiveUsages ps := by
              simp [positiveUsages, List.filterMap_cons, hu, hn]
            rw [h1, h2, ih]
          · have h1 : usageUpd a p = n := by simp [usageUpd, hu, hn]
            have h2 : positiveUsages (p :: ps) = n :: positiveUsages ps := by
              simp [positiveUsages, List.filterMap_cons, hu, hn]
            rw [h1, h2, ih, List.getLastD_cons]

/-- Every entry of `positiveUsages` is nonzero. -/
lemma positiveUsages_ne_zero (parts : List StreamPart) (n : Nat)
    (h : n ∈ positiveUsages parts) : n ≠ 0 := by
  unfold positiveUsages at h
  obtain ⟨p, _, hp⟩ := List.mem_filterMap.mp h
  cases hu : p.usage with
  | none => rw [hu] at hp; cases hp
  | some m =>
      rw [hu] at hp
      change (if m = 0 then none else some m) = some n at hp
      by_cases hm : m = 0
      · rw [if_pos hm] at hp
        cases hp
      · rw [if_neg hm] at hp
        cases hp
        exact hm

/-- C6 (amended): the recorded output token count is the LAST truthy
(nonzero) provider-reported usage total when one exists; otherwise — also
when the only reports were zero — it is `ceil(length / 4)` of the final
concatenated response text. -/
theorem C6_token_accounting (parts : List StreamPart) :
    recordedOutputTokens parts =
      match (positiveUsages parts).getLast? with
      | some n => n
      | none => ((String.join (parts.map StreamPart.content)).length + 3) / 4 := by
  unfold recordedOutputTokens reportedTokens
  rw [foldl_usageUpd]
  cases hl : (positiveUsages parts).getLast? with
  | none =>
      have h0 : (positiveUsages parts).getLastD 0 = 0 := by
        rw [List.getLastD_eq_getLast?, hl]
        rfl
      rw [h0, if_pos rfl]
      have hjoin : fullResponse (runStream (parts.map StreamPart.content))
          = String.join (parts.map StreamPart.content) := by
        rw [runStream, fullResponse_foldl]
        rfl
      rw [hjoin]
      rfl
  | some n =>
      have hmem : n ∈ positiveUsages parts :=
        List.mem_of_mem_getLast? (Option.mem_def.mpr hl)
      have hn : n ≠ 0 := positiveUsages_ne_zero parts n hmem
      have h0 : (positiveUsages parts).getLastD 0 = n := by
        rw [List.getLastD_eq_getLast?, hl]
        rfl
      rw [h0, if_neg hn]

/-- Counterexample to C6 as stated: the provider reports a usage object
whose total is 0 (`part.usage.total_tokens` falsy); the code then falls
back to the estimate, recording `ceil(4/4) = 1` instead of the reported
0. -/
theorem C6_cx_zero_usage :
    recordedOutputTokens [{ content := "abcd", usage := some 0 }] = 1
    ∧ ({ content := "abcd", usage := some 0 } : StreamPart).usage = some 0 := by
  decide

/-- C7: `getChatHistory` returns exactly `min 8 (stored turns)` items — so
never more than the window, fewer on short histories and none on empty
ones — and the backing turns are in nondecreasing timestamp order,
projected entrywise to the returned (role, content) pairs. -/
theorem C7_context_window (store : List ChatMsg) (uid : Nat) :
    (getChatHistory store uid).length
        = min MAX_CONTEXT_MESSAGES (store.filter fun m => m.userId == uid).length
    ∧ (getChatHistory store uid).length ≤ MAX_CONTEXT_MESSAGES
    ∧ (getChatHistory store uid = []
        ↔ (store.filter fun m => m.userId == uid) = [])
    ∧ List.Chain' (fun a b => a.timestamp ≤ b.timestamp)
        (getChatHistoryMsgs store uid)
    ∧ getChatHistory store uid
        = (getChatHistoryMsgs store uid).map fun m => (m.role, m.content) := by
  have hlen : (getChatHistory store uid).length
      = min MAX_CONTEXT_MESSAGES (store.filter fun m => m.userId == uid).length := by
    unfold getChatHistory
    rw [List.length_reverse, List.length_map, List.length_take,
      List.length_mergeSort]
  refine ⟨hlen, ?_, ?_, ?_, ?_⟩
  · rw [hlen]
    exact Nat.min_le_left _ _
  · constructor
    · intro h
      have h0 : (getChatHistory store uid).length = 0 := by
        rw [h]
        rfl
      rw [hlen] at h0
      have : (store.filter fun m => m.userId == uid).length = 0 := by
        have h8 : MAX_CONTEXT_MESSAGES = 8 := rfl
        omega
      exact List.length_eq_zero.mp this
    · intro h
      have h0 : (getChatHistory store uid).length = 0 := by
        rw [hlen, h]
        rfl
      exact List.length_eq_zero.mp h0
  · have htrans : ∀ a b c : ChatMsg, byTimestampDesc a b = true →
        byTimestampDesc b c = true → byTimestampDesc a c = true := by
      intro a b c hab hbc
      simp only [byTimestampDesc, decide_eq_true_eq] at *
      omega
    have htotal : ∀ a b : ChatMsg,
        (byTimestampDesc a b || byTimestampDesc b a) = true := by
      intro a b
      simp only [byTimestampDesc, Bool.or_eq_true, decide_eq_true_eq]
      omega
    have hsorted := List.sorted_mergeSort htrans htotal
      (store.filter fun m => m.userId == uid)
    have htake : List.Pairwise (fun a b => byTimestampDesc a b = true)
        (((store.filter fun m => m.userId == uid).mergeSort
            byTimestampDesc).take MAX_CONTEXT_MESSAGES) :=
      List.Pairwise.sublist (List.take_sublist _ _) hsorted
    have hdesc : List.Pairwise (fun a b : ChatMsg => b.timestamp ≤ a.timestamp)
        (((store.filter fun m => m.userId == uid).mergeSort
            byTimestampDesc).take MAX_CONTEXT_MESSAGES) := by
      refine htake.imp ?_
      intro a b hab
      simpa [byTimestampDesc, decide_eq_true_eq] using hab
    have hrev : List.Pairwise (fun a b : ChatMsg => a.timestamp ≤ b.timestamp)
        (getChatHistoryMsgs store uid) := by
      unfold getChatHistoryMsgs
      exact List.pairwise_reverse.mpr hdesc
    exact hrev.chain'
  · unfold getChatHistory getChatHistoryMsgs
    rw [List.map_reverse]

/-- Without interleaving — the write lands on the very document that was
read — the split semantics coincides with the sequential quota core. -/
lemma quotaDecideAndWrite_seq (now : Nat) (u : UserProfile) :
    quotaDecideAndWrite now u u = quotaStep now u := rfl

/-- C8 fails on the code: nothing serializes the read-check-write per user,
so under the duplicate-delivery interleaving both checks are admitted from
the same read value 9 and the counter lands on 11, above the free limit of
10 — the lost-update scenario the spec requires to be impossible.  The
final conjunct shows the split semantics agrees with the sequential
embedding when there is no interleaving. -/
theorem C8_check_then_increment_not_atomic :
    (duplicateDelivery 1000 userAtNine).2.1 = true
    ∧ (duplicateDelivery 1000 userAtNine).2.2 = true
    ∧ (duplicateDelivery 1000 userAtNine).1.dailyRequests = 11
    ∧ dailyLimit userAtNine.subscription = 10
    ∧ userAtNine.dailyRequests = 9
    ∧ quotaDecideAndWrite 1000 userAtNine userAtNine
        = quotaStep 1000 userAtNine := by
  decide

/-- C9: whenever some stored invoice matches the payment payload, the
handler records a completed payment under the SENDER's id and flips the
sender's profile to premium expiring 30 days from now — also when the
matched invoice belongs to a different user; the invoice's `user_id` is
never compared against the payer. -/
theorem C9_payment_credits_sender (now : Nat) (invoices : List Invoice)
    (payments : List Payment) (users : List UserProfile)
    (senderId : Nat) (pm : PaymentMsg) (inv : Invoice)
    (hfind : invoices.find? (fun i => i.payload == pm.invoice_payload) = some inv)
    (howner : inv.user_id ≠ senderId) :
    (successfulPaymentHandler now invoices payments users senderId pm).ok = true
    ∧ (successfulPaymentHandler now invoices payments users senderId pm).payments
        = payments ++
          [{ payment_id := pm.telegram_payment_charge_id
             invoice_id := inv.invoice_id
             user_id := senderId
             amount := pm.total_amount
             status := "completed" }]
    ∧ ∀ u ∈ users, u.userId = senderId →
        ({ u with
             subscription := .premium
             subscriptionExpiryDate := some (now + thirtyDaysMs) } : UserProfile)
          ∈ (successfulPaymentHandler now invoices payments users senderId pm).users := by
  unfold successfulPaymentHandler
  rw [hfind]
  refine ⟨rfl, rfl, ?_⟩
  intro u hu huid
  unfold grantPremium
  refine List.mem_map.mpr ⟨u, hu, ?_⟩
  rw [if_pos (by simp [huid])]

/-- Witness for `C1_quota_counts_and_caps`: a fresh free user admitted at
times 1000 and 2000 inside the first window ends with counter 2. -/
theorem C1_quota_counts_and_caps_witness :
    freshUser.dailyRequests = 0
    ∧ (∀ t ∈ checkTimes, t < freshUser.lastResetDate + dayMs)
    ∧ (∀ t ∈ checkTimes, checkAndUpdateSubscriptionStatus t freshUser = freshUser)
    ∧ (runChecks checkTimes freshUser).2 = checkTimes.length
    ∧ (runChecks checkTimes freshUser).1.dailyRequests = checkTimes.length :=
  ⟨rfl, by decide, by decide, by decide,
    (C1_quota_counts_and_caps checkTimes freshUser rfl (by decide) (by decide)
      (by decide)).1⟩

/-- Witness for `C2_reset_boundary`: a counter of 9 is reset to 1 at the
24-hour boundary and the request is admitted. -/
theorem C2_reset_boundary_witness :
    userAtNine.lastResetDate + dayMs ≤ dayMs
    ∧ ((updateUserRequests dayMs userAtNine).1.dailyRequests = 1
       ∧ (updateUserRequests dayMs userAtNine).1.lastResetDate = dayMs
       ∧ (updateUserRequests dayMs userAtNine).2 = true) :=
  ⟨by decide, C2_reset_boundary dayMs userAtNine (by decide)⟩

/-- Witness for `C3_expiry_downgrade`: a premium profile expired at 1000 is
downgraded at 2000 even with a failing notification reply. -/
theorem C3_expiry_downgrade_witness :
    expiredPremium.subscription = Subscription.premium
    ∧ expiredPremium.subscriptionExpiryDate = some 1000
    ∧ 1000 < 2000
    ∧ ((checkStatusWithNotify 2000 true false expiredPremium).stored.subscription
          = Subscription.free
       ∧ (checkStatusWithNotify 2000 true false expiredPremium).stored.subscriptionExpiryDate
          = none
       ∧ (checkStatusWithNotify 2000 true false expiredPremium).stored
          = checkAndUpdateSubscriptionStatus 2000 expiredPremium
       ∧ updateUserRequests 2000 expiredPremium
          = updateUserRequests 2000
              (checkAndUpdateSubscriptionStatus 2000 expiredPremium)) :=
  ⟨rfl, rfl, by decide,
    C3_expiry_downgrade 2000 true false expiredPremium 1000 rfl rfl (by decide)⟩

/-- Witness for `C9_payment_credits_sender`: user 7 pays against an invoice
owned by user 42 and is credited anyway. -/
theorem C9_payment_credits_sender_witness :
    ([invoiceFromOther].find? (fun i => i.payload == paymentMsgA.invoice_payload)
        = some invoiceFromOther)
    ∧ invoiceFromOther.user_id ≠ 7
    ∧ ((successfulPaymentHandler 0 [invoiceFromOther] [] [buyerProfile] 7
          paymentMsgA).ok = true
       ∧ (successfulPaymentHandler 0 [invoiceFromOther] [] [buyerProfile] 7
            paymentMsgA).payments
          = [] ++
            [{ payment_id := paymentMsgA.telegram_payment_charge_id
               invoice_id := invoiceFromOther.invoice_id
               user_id := 7
               amount := paymentMsgA.total_amount
               status := "completed" }]
       ∧ ∀ u ∈ [buyerProfile], u.userId = 7 →
           ({ u with
                subscription := .premium
                subscriptionExpiryDate := some (0 + thirtyDaysMs) } : UserProfile)
             ∈ (successfulPaymentHandler 0 [invoiceFromOther] [] [buyerProfile] 7
                  paymentMsgA).users) :=
  ⟨by decide, by decide,
    C9_payment_credits_sender 0 [invoiceFromOther] [] [buyerProfile] 7
      paymentMsgA invoiceFromOther (by decide) (by decide)⟩

/-- Witness for `C10_limit_invariant`: a free user at 9 of 10 stays within
the limit after one more in-window check. -/
theorem C10_limit_invariant_witness :
    userAtNine.dailyRequests ≤ dailyLimit userAtNine.subscription
    ∧ (updateUserRequests 1000 userAtNine).1.subscription = userAtNine.subscription
    ∧ (updateUserRequests 1000 userAtNine).1.dailyRequests
        ≤ dailyLimit (updateUserRequests 1000 userAtNine).1.subscription :=
  ⟨by decide, by decide,
    C10_limit_invariant 1000 userAtNine (by decide) (by decide)⟩

end TgBot
